import Mathlib

/-!
Shallow embedding of the parameter store and child-process supervisor of
the fltk-TclTk-PyTkinter repository.

Conventions of the embedding:
* C++ `double` values are modelled as rationals (`ℚ`): every claim at stake
  compares stored values for exact equality or tracks them through
  assignments, and the special floating-point values play no role except
  where explicitly noted.  The constant `M_PI` is the decimal literal the
  header provides for it.
* C++ member functions mutating `this` become Lean functions from the old
  record to a pair of the C++ return value and the new record.
* The `NAN` sentinel returned by `GraphParams::get` for an unknown name is
  modelled as `Option.none` (fallible lookup), `some v` being a numeric
  result.
-/

/-- The `M_PI` constant as written in `graph_params.h`. -/
def M_PI : ℚ := 3.14159265358979323846

/-- C++ `static_cast<int>` on a real value: truncation toward zero. -/
def truncQ (q : ℚ) : ℤ := if 0 ≤ q then ⌊q⌋ else ⌈q⌉

/-- The parameter store `GraphParams` from `graph_params.h`, with the
default member initializers of the C++ struct. -/
structure GraphParams where
  a : ℚ := 3
  b : ℚ := 2
  A : ℚ := 1
  B : ℚ := 1
  delta : ℚ := M_PI / 2
  num_points : ℤ := 1000
deriving DecidableEq

/-- A freshly constructed `GraphParams` (all defaults). -/
def defaultParams : GraphParams := {}

/-- `GraphParams::set` from `graph_window.cpp`: returns the C++ `bool`
result together with the updated store. -/
def GraphParams.set (p : GraphParams) (name : String) (value : ℚ) :
    Bool × GraphParams :=
  if name = "a" then (true, { p with a := value })
  else if name = "b" then (true, { p with b := value })
  else if name = "A" then (true, { p with A := value })
  else if name = "B" then (true, { p with B := value })
  else if name = "delta" then (true, { p with delta := value })
  else if name = "points" then (true, { p with num_points := truncQ value })
  else (false, p)

/-- `GraphParams::get` from `graph_window.cpp`; `none` models the `NAN`
sentinel returned for an unknown name. -/
def GraphParams.get (p : GraphParams) (name : String) : Option ℚ :=
  if name = "a" then some p.a
  else if name = "b" then some p.b
  else if name = "A" then some p.A
  else if name = "B" then some p.B
  else if name = "delta" then some p.delta
  else if name = "points" then some (p.num_points : ℚ)
  else none

/-- `GraphParams::load_preset` from `graph_window.cpp`. -/
def GraphParams.load_preset (p : GraphParams) (name : String) :
    Bool × GraphParams :=
  if name = "circle" then
    (true, { a := 1, b := 1, A := 1, B := 1, delta := M_PI / 2, num_points := 1000 })
  else if name = "figure8" then
    (true, { a := 1, b := 2, A := 1, B := 1, delta := 0, num_points := 1000 })
  else if name = "lissajous" then
    (true, { a := 3, b := 2, A := 1, B := 1, delta := M_PI / 2, num_points := 1000 })
  else if name = "star" then
    (true, { a := 5, b := 6, A := 1, B := 1, delta := M_PI / 2, num_points := 1000 })
  else if name = "bowtie" then
    (true, { a := 2, b := 3, A := 1, B := 1, delta := M_PI / 4, num_points := 1000 })
  else (false, p)

/-- `GraphParams::all` from `graph_window.cpp`: the `std::map` snapshot,
listed in the map's key order (`std::string` comparison puts the
upper-case names first). -/
def GraphParams.all (p : GraphParams) : List (String × ℚ) :=
  [("A", p.A), ("B", p.B), ("a", p.a), ("b", p.b),
   ("delta", p.delta), ("points", (p.num_points : ℚ))]

/-- The closed set of field names accepted by `set`/`get`. -/
def knownNames : List String := ["a", "b", "A", "B", "delta", "points"]

/-- The closed preset catalog of `load_preset`. -/
def presetNames : List String := ["circle", "figure8", "lissajous", "star", "bowtie"]

/-!
Line protocol codec: a model of `PluginProcess::process_line` from
`plugin_process.cpp`, which uses
`sscanf(line, "SET %63s %lf", ...) == 2` and then
`sscanf(line, "PRESET %63s", ...) == 1`.

`sscanf` semantics modelled here: a literal character in the format must
match the input exactly; a blank in the format skips any run of
whitespace; `%63s` skips whitespace then reads one to sixty-three
non-whitespace characters; `%lf` skips whitespace then reads a decimal
number in `strtod` form (optional sign, digits with optional decimal
point, optional exponent) — the hexadecimal, infinity and nan spellings
of `strtod` are left out, as no claim exercises them.  Matching is a
prefix match: input after the last converted field is ignored.
-/

/-- The whitespace characters of C `isspace` in the default locale. -/
def isWsChar (c : Char) : Bool :=
  c == ' ' || c == '\t' || c == '\n' || c == '\r' ||
  c == Char.ofNat 11 || c == Char.ofNat 12

/-- Drop a leading run of whitespace. -/
def skipWs : List Char → List Char
  | [] => []
  | c :: cs => if isWsChar c then skipWs cs else c :: cs

/-- Read up to `n` leading non-whitespace characters (the `%63s`
conversion body). -/
def takeTok : Nat → List Char → List Char × List Char
  | 0, cs => ([], cs)
  | _ + 1, [] => ([], [])
  | n + 1, c :: cs =>
    if isWsChar c then ([], c :: cs)
    else
      let (t, r) := takeTok n cs
      (c :: t, r)

/-- Numeric value of a decimal digit character. -/
def digitVal (c : Char) : Nat := c.toNat - 48

/-- Consume a leading run of decimal digits, returning the accumulated
value, the number of digits consumed, and the rest. -/
def parseDigits : List Char → Nat → Nat → Nat × Nat × List Char
  | [], acc, cnt => (acc, cnt, [])
  | c :: cs, acc, cnt =>
    if c.isDigit then parseDigits cs (10 * acc + digitVal c) (cnt + 1)
    else (acc, cnt, c :: cs)

/-- The decimal part of `strtod`, as used by the `%lf` conversion:
optional sign, integer digits, optional fraction, optional exponent
(kept only when at least one exponent digit follows).  Returns the value
and the unconsumed rest, or `none` when no digit is present. -/
def parseDecimal (cs : List Char) : Option (ℚ × List Char) :=
  let sgncs : ℚ × List Char :=
    match cs with
    | '-' :: r => (-1, r)
    | '+' :: r => (1, r)
    | _ => (1, cs)
  let (ip, ic, cs2) := parseDigits sgncs.2 0 0
  let fraccs : Nat × Nat × List Char :=
    match cs2 with
    | '.' :: r => parseDigits r 0 0
    | _ => (0, 0, cs2)
  let fp := fraccs.1
  let fc := fraccs.2.1
  let cs3 := fraccs.2.2
  if ic + fc = 0 then none
  else
    let mant : ℚ := sgncs.1 * ((ip : ℚ) + (fp : ℚ) / (10 : ℚ) ^ fc)
    match cs3 with
    | e :: r =>
      if e == 'e' || e == 'E' then
        let esr : Bool × List Char :=
          match r with
          | '-' :: rr => (true, rr)
          | '+' :: rr => (false, rr)
          | _ => (false, r)
        let (ev, ec, r2) := parseDigits esr.2 0 0
        if ec = 0 then some (mant, cs3)
        else if esr.1 then some (mant / (10 : ℚ) ^ ev, r2)
        else some (mant * (10 : ℚ) ^ ev, r2)
      else some (mant, cs3)
    | [] => some (mant, [])

/-- `sscanf(line, "SET %63s %lf", arg, &value) == 2`: on success, the
name token and the numeric value. -/
def scanSET (cs : List Char) : Option (String × ℚ) :=
  match cs with
  | 'S' :: 'E' :: 'T' :: rest =>
    let tr := takeTok 63 (skipWs rest)
    if tr.1 = [] then none
    else
      match parseDecimal (skipWs tr.2) with
      | some (v, _) => some (String.mk tr.1, v)
      | none => none
  | _ => none

/-- `sscanf(line, "PRESET %63s", arg) == 1`: on success, the name token. -/
def scanPRESET (cs : List Char) : Option String :=
  match cs with
  | 'P' :: 'R' :: 'E' :: 'S' :: 'E' :: 'T' :: rest =>
    let tr := takeTok 63 (skipWs rest)
    if tr.1 = [] then none else some (String.mk tr.1)
  | _ => none

/-- A decoded protocol message (`ProtocolMessage` of the spec). -/
inductive ProtocolMessage where
  | Set (name : String) (value : ℚ)
  | Preset (name : String)
deriving DecidableEq

/-- The decode order of `PluginProcess::process_line`: try `SET` first,
then `PRESET`, else no message. -/
def decodeLine (line : String) : Option ProtocolMessage :=
  match scanSET line.data with
  | some (n, v) => some (.Set n v)
  | none =>
    match scanPRESET line.data with
    | some n => some (.Preset n)
    | none => none

/-- Effect of `PluginProcess::process_line` on the parameter store (the
graph window's `params`); the C++ ignores the `bool` results of
`set`/`load_preset`, and an undecodable line leaves the store alone. -/
def process_line (p : GraphParams) (line : String) : GraphParams :=
  match decodeLine line with
  | some (.Set n v) => (p.set n v).2
  | some (.Preset n) => (p.load_preset n).2
  | none => p

/-!
Supervisor: `PluginProcess` from `plugin_process.cpp`.  The observable
state of a handle is whether a pipe is open (`pipe_ != nullptr`), the
line reassembly buffer, the remembered temp-script path (empty string
when none) and whether the materialized temp file currently exists on
disk.  `read(2)` outcomes in the fd callback are modelled by an oracle
value `ReadResult`; filesystem and spawn failures in `launch` by two
oracle booleans.
-/

/-- Observable state of a `PluginProcess` handle plus the temp file it
may have materialized. -/
structure PluginState where
  running : Bool := false
  line_buf : List Char := []
  script_path : String := ""
  tempFile : Bool := false
deriving DecidableEq

/-- A handle on which `launch` was never called (the default-initialized
members of the C++ class). -/
def initPlugin : PluginState := {}

/-- `PluginProcess::stop`: when a pipe is open, unregister, close it and
clear the buffer; then, when a script path is remembered, remove the
file and forget the path. -/
def PluginProcess.stop (st : PluginState) : PluginState :=
  let st1 := if st.running then { st with running := false, line_buf := [] } else st
  if st1.script_path ≠ "" then { st1 with script_path := "", tempFile := false }
  else st1

/-- Whether the first list is a leading segment of the second. -/
def leadsChars : List Char → List Char → Bool
  | [], _ => true
  | _ :: _, [] => false
  | a :: as, b :: bs => a == b && leadsChars as bs

/-- C `strstr(hay, needle) != nullptr`: the needle occurs somewhere in
the haystack. -/
def strstrHit : List Char → List Char → Bool
  | [], needle => needle.isEmpty
  | c :: t, needle => leadsChars needle (c :: t) || strstrHit t needle

/-- The temp path chosen by `launch`: extension `.py` when
`strstr(interpreter, "python")` finds a match, else `.tcl`. -/
def scriptPathFor (interpreter : String) : String :=
  if strstrHit interpreter.data ("python".data) then "/tmp/fltk_plugin.py"
  else "/tmp/fltk_plugin.tcl"

/-- `PluginProcess::launch`.  `fopenOk` is the oracle for
`fopen(script_path, "w")` succeeding, `popenOk` for `popen` succeeding.
Returns the C++ `bool` result and the new state. -/
def PluginProcess.launch (st : PluginState) (interpreter : String)
    (fopenOk popenOk : Bool) : Bool × PluginState :=
  if st.running then (true, st)
  else
    let st1 := { st with script_path := scriptPathFor interpreter }
    if !fopenOk then (false, st1)
    else
      let st2 := { st1 with tempFile := true }
      if !popenOk then (false, { st2 with tempFile := false })
      else (true, { st2 with running := true })

/-- Extract every complete newline-terminated segment, in order, from a
byte buffer; the trailing segment (no newline yet) is returned second.
This is the `while (find('\n')) { substr; erase; }` loop of
`PluginProcess::on_data`. -/
def splitNl : List Char → List (List Char) × List Char
  | [] => ([], [])
  | c :: cs =>
    if c = '\n' then ([] :: (splitNl cs).1, (splitNl cs).2)
    else
      match splitNl cs with
      | ([], r) => ([], c :: r)
      | (l :: ls, r) => ((c :: l) :: ls, r)

/-- Outcome of the non-blocking `read(2)` in the fd callback. -/
inductive ReadResult where
  /-- `n > 0`: the bytes read. -/
  | ok (bytes : List Char)
  /-- `n = 0`: end of stream. -/
  | eof
  /-- `n = -1` with `errno` `EAGAIN`/`EWOULDBLOCK`. -/
  | wouldBlock
  /-- `n = -1` with any other `errno`. -/
  | err
deriving DecidableEq

/-- `PluginProcess::on_data`: dispatch on the read outcome; on data,
append to the buffer, feed each completed line to `process_line`, keep
the trailing part buffered. -/
def PluginProcess.on_data (st : PluginState) (r : ReadResult) (p : GraphParams) :
    PluginState × GraphParams :=
  match r with
  | .wouldBlock => (st, p)
  | .eof => (PluginProcess.stop st, p)
  | .err => (PluginProcess.stop st, p)
  | .ok bytes =>
    let lr := splitNl (st.line_buf ++ bytes)
    ({ st with line_buf := lr.2 },
     lr.1.foldl (fun acc l => process_line acc (String.mk l)) p)

/-- The messages produced by one feed of bytes through the read path:
completed lines of `buf ++ chunk` run through the codec (lines that
decode to nothing are discarded), together with the new buffer. -/
def feedMessages (buf chunk : List Char) : List ProtocolMessage × List Char :=
  let lr := splitNl (buf ++ chunk)
  (lr.1.filterMap (fun l => decodeLine (String.mk l)), lr.2)

/-- Rebuild a byte stream from completed lines and a trailing rest. -/
def joinNl (ls : List (List Char)) (r : List Char) : List Char :=
  (ls.map (fun l => l ++ ['\n'])).flatten ++ r

/-!
Claim theorems.
-/

/-- C1: for every known field name and every value, `set` returns true
and a subsequent `get` returns the value (the integer-typed `points`
field truncating it); for every unknown name `set` returns false and
`get` returns the not-a-number sentinel (`none`). -/
theorem C1_set_get_roundtrip (p : GraphParams) (v : ℚ) :
    ((p.set "a" v).1 = true ∧ ((p.set "a" v).2).get "a" = some v) ∧
    ((p.set "b" v).1 = true ∧ ((p.set "b" v).2).get "b" = some v) ∧
    ((p.set "A" v).1 = true ∧ ((p.set "A" v).2).get "A" = some v) ∧
    ((p.set "B" v).1 = true ∧ ((p.set "B" v).2).get "B" = some v) ∧
    ((p.set "delta" v).1 = true ∧ ((p.set "delta" v).2).get "delta" = some v) ∧
    ((p.set "points" v).1 = true ∧
      ((p.set "points" v).2).get "points" = some ((truncQ v : ℤ) : ℚ)) ∧
    (∀ n : String, n ∉ knownNames → (p.set n v).1 = false ∧ p.get n = none) := by
  refine ⟨⟨rfl, rfl⟩, ⟨rfl, rfl⟩, ⟨rfl, rfl⟩, ⟨rfl, rfl⟩, ⟨rfl, rfl⟩, ⟨rfl, rfl⟩, ?_⟩
  intro n hn
  simp only [knownNames, List.mem_cons, List.not_mem_nil, or_false, not_or] at hn
  obtain ⟨h1, h2, h3, h4, h5, h6⟩ := hn
  exact ⟨by simp [GraphParams.set, h1, h2, h3, h4, h5, h6],
         by simp [GraphParams.get, h1, h2, h3, h4, h5, h6]⟩

/-- C1 witness: concrete instance discharging the unknown-name
hypothesis. -/
theorem C1_set_get_roundtrip_witness :
    (defaultParams.set "zz" 7).1 = false ∧ defaultParams.get "zz" = none :=
  (C1_set_get_roundtrip defaultParams 7).2.2.2.2.2.2 "zz" (by decide)

/-- C2: `load_preset` is atomic: a name in the closed catalog returns
true and overwrites every field (the result does not depend on the prior
store state); any other name returns false, mutates nothing, and the
`all` snapshot before and after is identical. -/
theorem C2_load_preset_atomic (p q : GraphParams) (name : String) :
    (name ∈ presetNames →
      (p.load_preset name).1 = true ∧
      (p.load_preset name).2 = (q.load_preset name).2) ∧
    (name ∉ presetNames →
      p.load_preset name = (false, p) ∧
      ((p.load_preset name).2).all = p.all) := by
  constructor
  · intro h
    simp only [presetNames, List.mem_cons, List.not_mem_nil, or_false] at h
    rcases h with h | h | h | h | h <;> subst h <;>
      exact ⟨rfl, rfl⟩
  · intro h
    simp only [presetNames, List.mem_cons, List.not_mem_nil, or_false, not_or] at h
    obtain ⟨h1, h2, h3, h4, h5⟩ := h
    have : p.load_preset name = (false, p) := by
      simp [GraphParams.load_preset, h1, h2, h3, h4, h5]
    exact ⟨this, by rw [this]⟩

/-- C2 witness: concrete instances discharging both hypotheses. -/
theorem C2_load_preset_atomic_witness :
    ((defaultParams.load_preset "circle").1 = true ∧
      (defaultParams.load_preset "circle").2 =
        (({ a := 9 } : GraphParams).load_preset "circle").2) ∧
    (defaultParams.load_preset "nope" = (false, defaultParams) ∧
      ((defaultParams.load_preset "nope").2).all = defaultParams.all) :=
  ⟨(C2_load_preset_atomic defaultParams { a := 9 } "circle").1 (by decide),
   (C2_load_preset_atomic defaultParams { a := 9 } "nope").2 (by decide)⟩

/-- C9: `all` is a full snapshot: six entries, key list exactly
`A, B, a, b, delta, points` (map order), and every key looks up to the
very value `get` returns for that name. -/
theorem C9_enumerate_snapshot (p : GraphParams) :
    p.all.length = 6 ∧
    p.all.map Prod.fst = ["A", "B", "a", "b", "delta", "points"] ∧
    (∀ n : String, n ∈ p.all.map Prod.fst → p.all.lookup n = p.get n) := by
  refine ⟨rfl, rfl, ?_⟩
  intro n hn
  simp only [GraphParams.all, List.map_cons, List.map_nil, List.mem_cons,
    List.not_mem_nil, or_false] at hn
  rcases hn with h | h | h | h | h | h <;> subst h <;> rfl

/-- C9 witness: concrete instance discharging the membership
hypothesis. -/
theorem C9_enumerate_snapshot_witness :
    defaultParams.all.lookup "delta" = defaultParams.get "delta" :=
  (C9_enumerate_snapshot defaultParams).2.2 "delta" (by decide)

/-- C10: `set` on a known name mutates only the named field: the result
is exactly the input record with that one field replaced. -/
theorem C10_set_frame (p : GraphParams) (v : ℚ) :
    (p.set "a" v).2 = { p with a := v } ∧
    (p.set "b" v).2 = { p with b := v } ∧
    (p.set "A" v).2 = { p with A := v } ∧
    (p.set "B" v).2 = { p with B := v } ∧
    (p.set "delta" v).2 = { p with delta := v } ∧
    (p.set "points" v).2 = { p with num_points := truncQ v } :=
  ⟨rfl, rfl, rfl, rfl, rfl, rfl⟩

/-- C3 counterexample: a line with trailing content after the two
tokens is not discarded — `sscanf` prefix matching accepts it, decodes
it as a `Set`, and the store is mutated. -/
theorem C3_trailing_tokens_counterexample :
    decodeLine "SET a 1.0 extra" = some (ProtocolMessage.Set "a" 1) ∧
    process_line defaultParams "SET a 1.0 extra" ≠ defaultParams :=
  ⟨of_decide_eq_true (by with_unfolding_all rfl),
   of_decide_eq_true (by with_unfolding_all rfl)⟩

/-- C3 amended: a line is decoded as `Set` when it starts with the
literal `SET` followed by a whitespace-separated name token and a token
with a numeric prefix (further trailing content is ignored, not
rejected); else as `Preset` when it starts with the literal `PRESET`
followed by a name token; any other line — such as `hello world`,
`SET`, or `SET a notanumber` — is silently discarded, leaving every
Parameter Store field unchanged. -/
theorem C3_process_line_amended :
    (∀ (p : GraphParams) (line : String),
      decodeLine line = none → process_line p line = p) ∧
    decodeLine "hello world" = none ∧
    decodeLine "SET" = none ∧
    decodeLine "SET a notanumber" = none ∧
    decodeLine "SET a 1.0" = some (ProtocolMessage.Set "a" 1) ∧
    decodeLine "SET a 1.0 extra" = some (ProtocolMessage.Set "a" 1) ∧
    decodeLine "PRESET circle" = some (ProtocolMessage.Preset "circle") := by
  refine ⟨?_, rfl, rfl, rfl,
    of_decide_eq_true (by with_unfolding_all rfl),
    of_decide_eq_true (by with_unfolding_all rfl), rfl⟩
  intro p line h
  simp [process_line, h]

/-- C3 witness: a discarded line leaves a concrete store unchanged. -/
theorem C3_process_line_amended_witness :
    process_line defaultParams "hello world" = defaultParams :=
  C3_process_line_amended.1 defaultParams "hello world" (by rfl)

/-- Reassembly invariant: the completed lines (each with its newline
restored) followed by the buffered rest rebuild the input byte stream —
every byte is consumed exactly once and order is preserved. -/
theorem splitNl_join (cs : List Char) :
    joinNl (splitNl cs).1 (splitNl cs).2 = cs := by
  induction cs with
  | nil => rfl
  | cons c cs ih =>
    by_cases h : c = '\n'
    · subst h
      simp only [splitNl, if_pos rfl]
      simpa [joinNl] using ih
    · simp only [splitNl, if_neg h]
      rcases hsp : splitNl cs with ⟨L, R⟩
      rw [hsp] at ih
      cases L with
      | nil => simpa [joinNl] using ih
      | cons l ls =>
        simp only [joinNl, List.map_cons, List.flatten_cons, List.append_assoc,
          List.cons_append, List.nil_append, List.singleton_append] at ih ⊢
        rw [ih]

/-- The buffered rest after extraction holds no newline: it is a
partial line. -/
theorem splitNl_rest_no_newline (cs : List Char) : '\n' ∉ (splitNl cs).2 := by
  induction cs with
  | nil => simp [splitNl]
  | cons c cs ih =>
    by_cases h : c = '\n'
    · subst h
      simpa [splitNl] using ih
    · simp only [splitNl, if_neg h]
      rcases hsp : splitNl cs with ⟨L, R⟩
      rw [hsp] at ih
      cases L with
      | nil =>
        intro hmem
        rcases List.mem_cons.mp hmem with h' | h'
        · exact h h'.symm
        · exact ih h'
      | cons l ls => exact ih

/-- Every extracted line holds no newline. -/
theorem splitNl_lines_no_newline (cs : List Char) :
    ∀ l ∈ (splitNl cs).1, '\n' ∉ l := by
  induction cs with
  | nil => simp [splitNl]
  | cons c cs ih =>
    by_cases h : c = '\n'
    · subst h
      simp only [splitNl, if_pos rfl]
      intro l hl
      rcases List.mem_cons.mp hl with h' | h'
      · subst h'; simp
      · exact ih l h'
    · simp only [splitNl, if_neg h]
      rcases hsp : splitNl cs with ⟨L, R⟩
      rw [hsp] at ih
      cases L with
      | nil => simp
      | cons l ls =>
        intro l' hl'
        rcases List.mem_cons.mp hl' with h' | h'
        · subst h'
          intro hmem
          rcases List.mem_cons.mp hmem with h'' | h''
          · exact h h''.symm
          · exact ih l (by simp) h''
        · exact ih l' (List.mem_cons_of_mem l h')

/-- C4: the read path buffers bytes and extracts complete
newline-terminated segments in order — joining the extracted lines and
the buffered rest rebuilds the stream (each segment handed over exactly
once), the rest holds no newline (never a premature message) — and the
two-chunk feed of the spec yields exactly `Set("a",1)` after the first
chunk, then `Set("b",2)` and `Preset("circle")` after the second. -/
theorem C4_reassembly :
    (∀ cs : List Char, joinNl (splitNl cs).1 (splitNl cs).2 = cs) ∧
    (∀ cs : List Char, '\n' ∉ (splitNl cs).2) ∧
    (∀ cs : List Char, ∀ l ∈ (splitNl cs).1, '\n' ∉ l) ∧
    feedMessages [] ("SET a 1.0\nSET b").data =
      ([ProtocolMessage.Set "a" 1], ("SET b").data) ∧
    feedMessages ("SET b").data (" 2.0\nPRESET circle\n").data =
      ([ProtocolMessage.Set "b" 2, ProtocolMessage.Preset "circle"], []) :=
  ⟨splitNl_join, splitNl_rest_no_newline, splitNl_lines_no_newline,
   of_decide_eq_true (by with_unfolding_all rfl),
   of_decide_eq_true (by with_unfolding_all rfl)⟩

/-- C4 witness: concrete instance of the stream-rebuild equation and of
the no-newline property with its membership hypothesis discharged. -/
theorem C4_reassembly_witness :
    joinNl (splitNl ("ab\ncd").data).1 (splitNl ("ab\ncd").data).2 = ("ab\ncd").data ∧
    '\n' ∉ ['a', 'b'] :=
  ⟨C4_reassembly.1 ("ab\ncd").data,
   C4_reassembly.2.2.1 ("ab\ncd").data ['a', 'b'] (by decide)⟩

/-- C5: in the fd callback, a would-block read changes nothing (in
particular a running handle stays running and `stop` is not invoked);
a zero-byte read or any other read error makes the callback exactly
`stop`, after which `running` is false. -/
theorem C5_read_outcomes :
    (∀ (st : PluginState) (p : GraphParams),
      PluginProcess.on_data st ReadResult.wouldBlock p = (st, p)) ∧
    (∀ (st : PluginState) (p : GraphParams), st.running = true →
      ((PluginProcess.on_data st ReadResult.wouldBlock p).1).running = true) ∧
    (∀ (st : PluginState) (p : GraphParams),
      PluginProcess.on_data st ReadResult.eof p = (PluginProcess.stop st, p)) ∧
    (∀ (st : PluginState) (p : GraphParams),
      PluginProcess.on_data st ReadResult.err p = (PluginProcess.stop st, p)) ∧
    (∀ st : PluginState, (PluginProcess.stop st).running = false) := by
  refine ⟨fun st p => rfl, fun st p h => h, fun st p => rfl, fun st p => rfl, ?_⟩
  intro st
  unfold PluginProcess.stop
  cases hr : st.running <;> simp [hr] <;> split <;> simp [hr]

/-- C5 witness: a running handle stays running across a would-block
read. -/
theorem C5_read_outcomes_witness :
    ((PluginProcess.on_data { running := true } ReadResult.wouldBlock
        defaultParams).1).running = true :=
  C5_read_outcomes.2.1 { running := true } defaultParams rfl

/-- Behavior of `stop` in closed form: the handle ends not running with
an empty remembered path; the buffer is cleared when a pipe was open;
the temp file is removed when a path was remembered. -/
theorem stop_eq (st : PluginState) :
    PluginProcess.stop st =
      { running := false,
        line_buf := if st.running then [] else st.line_buf,
        script_path := "",
        tempFile := if st.script_path = "" then st.tempFile else false } := by
  obtain ⟨r, lb, sp, tf⟩ := st
  unfold PluginProcess.stop
  cases r <;> by_cases hp : sp = "" <;> simp [hp]

/-- C6 counterexample: after a failed `launch` (temp file cannot be
created) the handle's state is not as if `launch` had never been
called — the computed script path is retained in the handle. -/
theorem C6_failed_launch_counterexample :
    (PluginProcess.launch initPlugin "python3" false false).1 = false ∧
    (PluginProcess.launch initPlugin "python3" false false).2 ≠ initPlugin ∧
    ((PluginProcess.launch initPlugin "python3" false false).2).script_path =
      "/tmp/fltk_plugin.py" := by decide

/-- C6 amended: a second `launch` while running is a no-op returning
true; a failed `launch` returns false with `running` still false — on a
temp-file creation failure no file is created, and on a spawn failure
the partially written temp file is removed — but the handle retains the
computed script path (state not exactly as before the call; it is
cleared at the next `stop`); a successful launch sets it running with
the temp file in place. -/
theorem C6_launch_amended :
    (∀ (st : PluginState) (i : String) (fo po : Bool),
      st.running = true → PluginProcess.launch st i fo po = (true, st)) ∧
    (∀ (st : PluginState) (i : String) (po : Bool),
      st.running = false →
        PluginProcess.launch st i false po =
          (false, { st with script_path := scriptPathFor i }) ∧
        ((PluginProcess.launch st i false po).2).running = false ∧
        ((PluginProcess.launch st i false po).2).tempFile = st.tempFile) ∧
    (∀ (st : PluginState) (i : String),
      st.running = false →
        PluginProcess.launch st i true false =
          (false, { st with script_path := scriptPathFor i, tempFile := false }) ∧
        ((PluginProcess.launch st i true false).2).running = false) ∧
    (∀ (st : PluginState) (i : String),
      st.running = false →
        PluginProcess.launch st i true true =
          (true, { st with script_path := scriptPathFor i, tempFile := true,
                           running := true })) := by
  refine ⟨?_, ?_, ?_, ?_⟩ <;> intro st i <;>
    first
      | (intro fo po h; simp [PluginProcess.launch, h])
      | (intro po h; simp [PluginProcess.launch, h])
      | (intro h; simp [PluginProcess.launch, h])

/-- C6 witness: concrete instances discharging the running and
not-running hypotheses. -/
theorem C6_launch_amended_witness :
    PluginProcess.launch { running := true } "tclsh" true true =
      (true, { running := true }) ∧
    PluginProcess.launch initPlugin "python3" true true =
      (true, { initPlugin with script_path := scriptPathFor "python3",
                               tempFile := true, running := true }) :=
  ⟨C6_launch_amended.1 { running := true } "tclsh" true true rfl,
   C6_launch_amended.2.2.2 initPlugin "python3" rfl⟩

/-- C7: `stop` is idempotent and safe on a never-launched handle; it
always leaves `running` false and no remembered script path; on an open
pipe it clears the reassembly buffer, and when a script path is
remembered it removes the temp file. -/
theorem C7_stop_idempotent :
    (∀ st : PluginState,
      PluginProcess.stop (PluginProcess.stop st) = PluginProcess.stop st) ∧
    (∀ st : PluginState,
      (PluginProcess.stop st).running = false ∧
      (PluginProcess.stop st).script_path = "") ∧
    PluginProcess.stop initPlugin = initPlugin ∧
    (∀ st : PluginState, st.running = true →
      (PluginProcess.stop st).line_buf = []) ∧
    (∀ st : PluginState, st.script_path ≠ "" →
      (PluginProcess.stop st).tempFile = false) := by
  refine ⟨?_, ?_, by decide, ?_, ?_⟩ <;> intro st
  · simp [stop_eq]
  · simp [stop_eq]
  · intro h; simp [stop_eq, h]
  · intro h; simp [stop_eq, h]

/-- C7 witness: one `stop` on a concrete running handle clears the
buffer and removes the temp file. -/
theorem C7_stop_idempotent_witness :
    (PluginProcess.stop { running := true, line_buf := ['x'],
                          script_path := "/tmp/fltk_plugin.tcl",
                          tempFile := true }).line_buf = [] ∧
    (PluginProcess.stop { running := true, line_buf := ['x'],
                          script_path := "/tmp/fltk_plugin.tcl",
                          tempFile := true }).tempFile = false :=
  ⟨C7_stop_idempotent.2.2.2.1 _ rfl,
   C7_stop_idempotent.2.2.2.2 _ (by decide)⟩

/-- C8 counterexample: `set("points", -5)` succeeds and stores a
negative `num_points`, so the non-negativity invariant does not hold
after every `set` for all argument values. -/
theorem C8_negative_points_counterexample :
    (defaultParams.set "points" (-5)).1 = true ∧
    ((defaultParams.set "points" (-5)).2).num_points = -5 ∧
    ¬(0 ≤ ((defaultParams.set "points" (-5)).2).num_points) :=
  ⟨of_decide_eq_true (by with_unfolding_all rfl),
   of_decide_eq_true (by with_unfolding_all rfl),
   of_decide_eq_true (by with_unfolding_all rfl)⟩

/-- C8 amended: every field holds a (finite) rational at all times in
this model; `num_points` is non-negative at creation, after every
`load_preset`, and after every `set` with a non-negative value — but
`set` does not validate, so `set("points", v)` with negative `v` stores
the negative truncation of `v`. -/
theorem C8_invariant_amended :
    0 ≤ defaultParams.num_points ∧
    (∀ (p : GraphParams) (name : String),
      0 ≤ p.num_points → 0 ≤ ((p.load_preset name).2).num_points) ∧
    (∀ (p : GraphParams) (name : String) (v : ℚ),
      0 ≤ p.num_points → 0 ≤ v → 0 ≤ ((p.set name v).2).num_points) := by
  refine ⟨by decide, ?_, ?_⟩
  · intro p name hp
    unfold GraphParams.load_preset
    repeat' split
    all_goals simp_all
  · intro p name v hp hv
    unfold GraphParams.set
    repeat' split
    all_goals simp_all [truncQ, Int.floor_nonneg]

/-- C8 witness: concrete instance discharging both hypotheses. -/
theorem C8_invariant_amended_witness :
    0 ≤ ((defaultParams.set "points" 7).2).num_points :=
  C8_invariant_amended.2.2 defaultParams "points" 7 (by decide) (by norm_num)
